import Mathlib

/-!
Shallow embedding of `scionlab/openvpn_config.py`: the OpenVPN trust-chain
core of the SCIONLab coordination service.  Python strings are Lean
`String`s, X.509 objects are explicit structures, the two fixed CA file
locations are two optional slots of a `FileSystem` record, randomness
(RSA key generation, `uuid.uuid4().hex`, `x509.random_serial_number()`)
and the clock (`datetime.utcnow()`) are threaded as explicit parameters,
and Python exceptions are an `Except` error type.
-/

namespace OpenvpnConfig

/-- One X.509 name attribute, as built by `x509.NameAttribute(oid, value)`;
the OID is kept as its dotted string. -/
structure NameAttribute where
  oid : String
  value : String
deriving DecidableEq, Repr

/-- An `x509.Name`: an ordered list of name attributes. -/
abbrev X509Name := List NameAttribute

/-- The `cryptography` `NameOID` constants used by the module. -/
def NameOID_COUNTRY_NAME : String := "2.5.4.6"

def NameOID_STATE_OR_PROVINCE_NAME : String := "2.5.4.8"

def NameOID_LOCALITY_NAME : String := "2.5.4.7"

def NameOID_ORGANIZATION_NAME : String := "2.5.4.10"

def NameOID_ORGANIZATIONAL_UNIT_NAME : String := "2.5.4.11"

def NameOID_COMMON_NAME : String := "2.5.4.3"

def NameOID_EMAIL_ADDRESS : String := "1.2.840.113549.1.9.1"

def ExtendedKeyUsageOID_SERVER_AUTH : String := "1.3.6.1.5.5.7.3.1"

def ExtendedKeyUsageOID_CLIENT_AUTH : String := "1.3.6.1.5.5.7.3.2"

/-- The nine bits of an `x509.KeyUsage` extension, in the positional order
of the `cryptography` constructor. -/
structure KeyUsage where
  digital_signature : Bool
  content_commitment : Bool
  key_encipherment : Bool
  data_encipherment : Bool
  key_agreement : Bool
  key_cert_sign : Bool
  crl_sign : Bool
  encipher_only : Bool
  decipher_only : Bool
deriving DecidableEq, Repr

/-- The extension values attached by this module.  Key identifiers derived
from a public key are modelled by the public-key value itself. -/
inductive ExtensionValue where
  | subjectAlternativeName (dnsNames : List String)
  | authorityKeyIdentifier (issuerPublicKey : Nat)
  | subjectKeyIdentifier (subjectPublicKey : Nat)
  | keyUsage (ku : KeyUsage)
  | extendedKeyUsage (oids : List String)
  | basicConstraints (ca : Bool) (path_length : Option Nat)
deriving DecidableEq, Repr

/-- An X.509 extension: a value plus its criticality flag. -/
structure Extension where
  value : ExtensionValue
  critical : Bool
deriving DecidableEq, Repr

/-- An X.509 certificate as assembled by `x509.CertificateBuilder`:
subject and issuer names, the subject public key, serial number, the
validity window (`datetime.utcnow()` modelled as a `Nat` instant, the
`timedelta(days=d)` as adding `d`), and the extension list in the order
the builder added them. -/
structure Certificate where
  subject : X509Name
  issuer : X509Name
  public_key : Nat
  serial_number : Nat
  not_valid_before : Nat
  not_valid_after : Nat
  extensions : List Extension
deriving DecidableEq, Repr

/-- An RSA private key, identified by the value of its `public_key()`. -/
structure RSAPrivateKey where
  public_key : Nat
deriving DecidableEq, Repr

/-- A private key as returned by `serialization.load_pem_private_key`:
either an RSA key or a key of some other type (the module checks
`isinstance(ca_key, rsa.RSAPrivateKey)`). -/
inductive PrivateKey where
  | rsa (k : RSAPrivateKey)
  | ec (public_key : Nat)
deriving DecidableEq, Repr

/-- Bytes stored at the CA key path: a PEM private key encrypted with a
password (`BestAvailableEncryption`), or bytes that do not parse. -/
inductive KeyFileData where
  | pem (k : PrivateKey) (password : String)
  | garbage
deriving DecidableEq, Repr

/-- Bytes stored at the CA certificate path: a PEM certificate, or bytes
that do not parse. -/
inductive CertFileData where
  | cert (c : Certificate)
  | garbage
deriving DecidableEq, Repr

/-- The two fixed storage locations the module reads and writes:
`settings.VPN_CA_KEY_PATH` and `settings.VPN_CA_CERT_PATH`.  `none`
models an absent file (`os.path.exists` false / `FileNotFoundError`). -/
structure FileSystem where
  caKeyFile : Option KeyFileData
  caCertFile : Option CertFileData
deriving DecidableEq, Repr

/-- Models `settings.VPN_KEYGEN_CONFIG`. -/
structure VpnKeygenConfig where
  KEY_COUNTRY : String
  KEY_PROVINCE : String
  KEY_CITY : String
  KEY_ORG : String
  KEY_OU : String
  KEY_NAME : String
  KEY_EMAIL : String
  KEY_SIZE : Nat
  CA_EXPIRE : Nat
  KEY_EXPIRE : Nat
deriving DecidableEq, Repr

/-- The Django settings the module reads (file paths are the two
`FileSystem` slots and need no further representation). -/
structure Settings where
  VPN_CA_KEY_PASSWORD : String
  VPN_KEYGEN_CONFIG : VpnKeygenConfig
deriving DecidableEq, Repr

/-- The Python exceptions that can escape the module's functions. -/
inductive PyError where
  | valueError (msg : String)
  | typeError
  | runtimeError (msg : String)
  | keyError (placeholder : String)
deriving DecidableEq, Repr

/-- Python `_make_name(common_name)`: the fixed distinguished-name skeleton with
the seven organizational fields from settings plus the common name. -/
def _make_name (s : Settings) (common_name : String) : X509Name :=
  [⟨NameOID_COUNTRY_NAME, s.VPN_KEYGEN_CONFIG.KEY_COUNTRY⟩,
   ⟨NameOID_STATE_OR_PROVINCE_NAME, s.VPN_KEYGEN_CONFIG.KEY_PROVINCE⟩,
   ⟨NameOID_LOCALITY_NAME, s.VPN_KEYGEN_CONFIG.KEY_CITY⟩,
   ⟨NameOID_ORGANIZATION_NAME, s.VPN_KEYGEN_CONFIG.KEY_ORG⟩,
   ⟨NameOID_ORGANIZATIONAL_UNIT_NAME, s.VPN_KEYGEN_CONFIG.KEY_OU⟩,
   ⟨NameOID_COMMON_NAME, common_name⟩,
   ⟨"2.5.4.41", s.VPN_KEYGEN_CONFIG.KEY_NAME⟩,
   ⟨NameOID_EMAIL_ADDRESS, s.VPN_KEYGEN_CONFIG.KEY_EMAIL⟩]

/-- Python `_truncated_unique_name(name)`: enforce the 64-character limit on a
subject name; `uuid4hex` is the value of `uuid.uuid4().hex` drawn when
the name is too long. -/
def _truncated_unique_name (name : String) (uuid4hex : String) : String :=
  let limit := 64
  let uuid_len := 32
  if name.length ≤ limit then name
  else
    let shortened := name.take (limit - uuid_len)
    shortened ++ uuid4hex

/-- Python `_make_cert(subject_name, subject_key, issuer_name, issuer_key,
extended_key_usage_oid)`: the leaf-certificate builder.  `uuid4hex`,
`serial` and `now` stand for the randomness and clock drawn inside. -/
def _make_cert (s : Settings) (uuid4hex : String) (serial now : Nat)
    (subject_name : String) (subject_key : RSAPrivateKey)
    (issuer_name : X509Name) (issuer_key : RSAPrivateKey)
    (extended_key_usage_oid : String) : Certificate :=
  let subject_name := _truncated_unique_name subject_name uuid4hex
  { subject := _make_name s subject_name
    issuer := issuer_name
    public_key := subject_key.public_key
    serial_number := serial
    not_valid_before := now
    not_valid_after := now + s.VPN_KEYGEN_CONFIG.KEY_EXPIRE
    extensions :=
      [⟨.subjectAlternativeName [subject_name], false⟩,
       ⟨.authorityKeyIdentifier issuer_key.public_key, false⟩,
       ⟨.subjectKeyIdentifier subject_key.public_key, false⟩,
       ⟨.keyUsage ⟨true, false, true, false, false, false, false, false, false⟩, true⟩,
       ⟨.extendedKeyUsage [extended_key_usage_oid], true⟩,
       ⟨.basicConstraints false none, true⟩] }

/-- Python `_generate_root_ca_cert(key)`: the self-signed root certificate. -/
def _generate_root_ca_cert (s : Settings) (key : RSAPrivateKey)
    (serial now : Nat) : Certificate :=
  let subject := _make_name s (s.VPN_KEYGEN_CONFIG.KEY_ORG ++ " CA")
  { subject := subject
    issuer := subject
    public_key := key.public_key
    serial_number := serial
    not_valid_before := now
    not_valid_after := now + s.VPN_KEYGEN_CONFIG.CA_EXPIRE
    extensions :=
      [⟨.authorityKeyIdentifier key.public_key, false⟩,
       ⟨.subjectKeyIdentifier key.public_key, false⟩,
       ⟨.basicConstraints true (some 0), true⟩] }

/-- Python `name.get_attributes_for_oid(oid)`, projected to the attribute values. -/
def get_attributes_for_oid (n : X509Name) (oid : String) : List String :=
  (n.filter fun a => a.oid == oid).map fun a => a.value

/-- Python `get_cert_common_name(cert_data)` on an already-parsed certificate:
returns the single Common Name attribute of the subject, raising
`ValueError` when the subject does not have exactly one. -/
def get_cert_common_name (cert : Certificate) : Except PyError String :=
  let cn := get_attributes_for_oid cert.subject NameOID_COMMON_NAME
  if cn.length ≠ 1 then
    .error (.valueError "Certificate Common Name field is not unequivocal.")
  else
    .ok (cn.headD "")

/-- Models `serialization.load_pem_private_key(data, password, backend)`:
decrypts and parses a PEM private key, raising `ValueError` on a wrong
password or unparseable bytes. -/
def load_pem_private_key (data : KeyFileData) (password : String) :
    Except PyError PrivateKey :=
  match data with
  | .pem k pw =>
    if pw = password then .ok k
    else .error (.valueError "Bad decrypt. Incorrect password?")
  | .garbage => .error (.valueError "Could not deserialize key data.")

/-- Models `x509.load_pem_x509_certificate(data, backend)`. -/
def load_pem_x509_certificate (data : CertFileData) :
    Except PyError Certificate :=
  match data with
  | .cert c => .ok c
  | .garbage => .error (.valueError "Unable to load PEM file.")

/-- The message of the `RuntimeError` raised by `load_ca_cert` when the
certificate file is missing (the source concatenates the three string
literals with the trailing spaces shown). -/
def load_ca_cert_err_msg : String :=
  "Missing CA root configuration. " ++
  "Please run the admin command `python3 ./manage.py initialize_root_ca` " ++
  "or import an existing root CA configuration."

/-- The message of the `RuntimeError` raised by `load_ca_key` when the key
file is missing (here the source's three literals join without spaces). -/
def load_ca_key_err_msg : String :=
  "Missing CA root configuration." ++
  "Please run the admin command `python3 ./manage.py initialize_root_ca`" ++
  "or import an existing root CA configuration."

/-- Python `load_ca_cert()`: reads and parses the CA certificate file.  Only
`FileNotFoundError` is caught and re-raised as a `RuntimeError` with the
remediation message; a parse failure propagates as a `ValueError`. -/
def load_ca_cert (fs : FileSystem) : Except PyError Certificate :=
  match fs.caCertFile with
  | none => .error (.runtimeError load_ca_cert_err_msg)
  | some data => load_pem_x509_certificate data

/-- Python `load_ca_key()`: reads, decrypts and parses the CA key file, then
checks the key is RSA (raising `TypeError` otherwise).  Only
`FileNotFoundError` is caught and re-raised as a `RuntimeError` with the
remediation message; decrypt/parse failures propagate as `ValueError`
and the RSA-instance check as `TypeError`. -/
def load_ca_key (s : Settings) (fs : FileSystem) :
    Except PyError RSAPrivateKey :=
  match fs.caKeyFile with
  | none => .error (.runtimeError load_ca_key_err_msg)
  | some data =>
    match load_pem_private_key data s.VPN_CA_KEY_PASSWORD with
    | .error e => .error e
    | .ok (.rsa k) => .ok k
    | .ok (.ec _) => .error .typeError

/-- Python `load_ca_key_material()`: loads certificate then key. -/
def load_ca_key_material (s : Settings) (fs : FileSystem) :
    Except PyError (RSAPrivateKey × Certificate) := do
  let ca_cert ← load_ca_cert fs
  let ca_key ← load_ca_key s fs
  return (ca_key, ca_cert)

/-- Python `write_vpn_ca_config()`: the bootstrap.  If the key file is absent, a
fresh key (`freshKey`, the value `_generate_private_key()` would draw) is
written password-encrypted; otherwise the existing key is loaded.  Then,
if the certificate file is absent, the self-signed root certificate is
written; otherwise the file is left untouched.  `serial` and `now` stand
for the serial number and clock drawn when the certificate is created. -/
def write_vpn_ca_config (s : Settings) (freshKey : RSAPrivateKey)
    (serial now : Nat) (fs : FileSystem) : Except PyError FileSystem := do
  let encryptedKey : KeyFileData := .pem (.rsa freshKey) s.VPN_CA_KEY_PASSWORD
  let (key, fs1) ←
    match fs.caKeyFile with
    | none => pure (freshKey, { fs with caKeyFile := some encryptedKey })
    | some _ => do
      let k ← load_ca_key s fs
      pure (k, fs)
  match fs1.caCertFile with
  | some _ => return fs1
  | none =>
    let rootCert : CertFileData := .cert (_generate_root_ca_cert s key serial now)
    return { fs1 with caCertFile := some rootCert }

/-- The owner of a user AS (`as_.owner.email`). -/
structure Owner where
  email : String
deriving DecidableEq, Repr

/-- The slice of the AS model the module reads: `as_path_str()`,
`is_infrastructure_AS()` and `owner`. -/
structure AS where
  as_path_str : String
  is_infrastructure_AS : Bool
  owner : Owner
deriving DecidableEq, Repr

/-- The slice of the Host model the module reads. -/
structure Host where
  AS : AS
  public_ip : String
  uid : String
deriving DecidableEq, Repr

/-- Python `generate_vpn_server_key_material(host)`: issues the VPN server
credential.  `key`, `uuid4hex`, `serial`, `now` stand for the randomness
and clock drawn inside; the PEM-decoded key/certificate pair is returned
as the key and certificate values themselves. -/
def generate_vpn_server_key_material (s : Settings) (fs : FileSystem)
    (key : RSAPrivateKey) (uuid4hex : String) (serial now : Nat)
    (host : Host) : Except PyError (RSAPrivateKey × Certificate) := do
  let (ca_key, ca_cert) ← load_ca_key_material s fs
  let subject := host.AS.as_path_str ++ "__" ++ host.public_ip.replace ":" "_"
  let cert := _make_cert s uuid4hex serial now subject key ca_cert.issuer
    ca_key ExtendedKeyUsageOID_SERVER_AUTH
  return (key, cert)

/-- Python `generate_vpn_client_key_material(host)`: issues a VPN client
credential, with the subject depending on the endpoint kind. -/
def generate_vpn_client_key_material (s : Settings) (fs : FileSystem)
    (client_key : RSAPrivateKey) (uuid4hex : String) (serial now : Nat)
    (host : Host) : Except PyError (RSAPrivateKey × Certificate) := do
  let (ca_key, ca_cert) ← load_ca_key_material s fs
  let as_ := host.AS
  let subject :=
    if as_.is_infrastructure_AS then
      as_.as_path_str ++ "_" ++ host.uid
    else
      as_.owner.email ++ "_" ++ as_.as_path_str
  let client_cert := _make_cert s uuid4hex serial now subject client_key
    ca_cert.issuer ca_key ExtendedKeyUsageOID_CLIENT_AUTH
  return (client_key, client_cert)

/-- Models `cert.public_bytes(serialization.Encoding.PEM).decode()`, modelled as
an opaque-but-computable text rendering of the certificate. -/
def public_bytes_pem (c : Certificate) : String :=
  "-----BEGIN CERTIFICATE-----PEM." ++ toString c.serial_number ++
  "-----END CERTIFICATE-----"

/-- A parsed `string.Template`: alternating literal text and `$Name`
placeholders.  (In a parsed template a literal `$` can only come from the
`$$` escape, so literal segments of an escape-free template contain no
`$`.) -/
inductive TemplateSeg where
  | lit (s : String)
  | placeholder (name : String)
deriving DecidableEq, Repr

/-- A template document. -/
abbrev ConfigTemplate := List TemplateSeg

/-- Python `string.Template(...).substitute(mapping)`: pure substitution; a
placeholder absent from the mapping raises `KeyError`. -/
def substitute (mapping : List (String × String)) :
    ConfigTemplate → Except PyError String
  | [] => .ok ""
  | .lit s :: rest => do
    let r ← substitute mapping rest
    return s ++ r
  | .placeholder n :: rest =>
    match mapping.lookup n with
    | none => .error (.keyError n)
    | some v => do
      let r ← substitute mapping rest
      return v ++ r

/-- The VPN server the client connects to (`client.vpn.server`). -/
structure VPNServer where
  public_ip : String
deriving DecidableEq, Repr

/-- The slice of the VPN model the client-config renderer reads. -/
structure VPN where
  server : VPNServer
  server_port : Nat
deriving DecidableEq, Repr

/-- The slice of the VPNClient model the renderer reads: the client's
stored PEM certificate and private key are already text. -/
structure VPNClient where
  vpn : VPN
  cert : String
  private_key : String
deriving DecidableEq, Repr

/-- Python `generate_vpn_client_config(client)`: loads the CA certificate,
reads the client template (`client_config_tmpl`, passed here as the
parsed file content) and substitutes the five connection/credential
values. -/
def generate_vpn_client_config (fs : FileSystem)
    (client_config_tmpl : ConfigTemplate) (client : VPNClient) :
    Except PyError String := do
  let ca_cert_obj ← load_ca_cert fs
  let ca_cert := public_bytes_pem ca_cert_obj
  let server_public_ip := client.vpn.server.public_ip
  let server_vpn_port := client.vpn.server_port
  substitute
    [("ServerIP", server_public_ip),
     ("ServerPort", toString server_vpn_port),
     ("CACert", ca_cert),
     ("ClientCert", client.cert),
     ("ClientKey", client.private_key)]
    client_config_tmpl

/-- Python `ccd_config(vpn_client)`: the (common-name, directive-line) pair.
The client's stored certificate text is modelled as parsed data. -/
def ccd_config (vpn_client_cert : Certificate) (vpn_client_ip : String)
    (netmask : String) : Except PyError (String × String) := do
  let common_name ← get_cert_common_name vpn_client_cert
  return (common_name, "ifconfig-push " ++ vpn_client_ip ++ " " ++ netmask)

/-! Helper definitions used by the theorem statements. -/

/-- The KeyUsage extension of a certificate, with its criticality. -/
def get_extension_key_usage (c : Certificate) : Option (KeyUsage × Bool) :=
  c.extensions.findSome? fun e =>
    match e.value with
    | .keyUsage ku => some (ku, e.critical)
    | _ => none

/-- A lowercase hexadecimal digit, as produced by `uuid.uuid4().hex`. -/
def isHexDigitChar (ch : Char) : Prop :=
  ('0' ≤ ch ∧ ch ≤ '9') ∨ ('a' ≤ ch ∧ ch ≤ 'f')

instance (ch : Char) : Decidable (isHexDigitChar ch) := by
  unfold isHexDigitChar; infer_instance

/-- The placeholder names a template references, in order. -/
def placeholderNames : ConfigTemplate → List String
  | [] => []
  | .lit _ :: rest => placeholderNames rest
  | .placeholder n :: rest => n :: placeholderNames rest

/-- The substitution keys `generate_vpn_client_config` supplies. -/
def client_config_keys : List String :=
  ["ServerIP", "ServerPort", "CACert", "ClientCert", "ClientKey"]

/-- The string contains no `$`, the sentinel character that introduces a
`string.Template` placeholder. -/
def noDollar (str : String) : Prop := '$' ∉ str.data

instance (str : String) : Decidable (noDollar str) := by
  unfold noDollar; infer_instance

/-- Whether `pat` occurs as a contiguous run inside the character list. -/
def hasSubstringAux (pat : List Char) : List Char → Bool
  | [] => decide (pat = [])
  | c :: rest => pat.isPrefixOf (c :: rest) || hasSubstringAux pat rest

/-- Whether an error message carries the remediation hint naming the
bootstrap admin command `initialize_root_ca`. -/
def contains_remediation_hint (msg : String) : Bool :=
  hasSubstringAux "initialize_root_ca".data msg.data

/-- The `CAUnavailableError` family of the specification: the
`RuntimeError`s this module raises. -/
def is_ca_unavailable : PyError → Bool
  | .runtimeError _ => true
  | _ => false

/-! Concrete sample data for witnesses and counterexamples. -/

def sampleKeygenConfig : VpnKeygenConfig :=
  { KEY_COUNTRY := "CH", KEY_PROVINCE := "ZH", KEY_CITY := "Zurich",
    KEY_ORG := "Scionlab", KEY_OU := "Scionlab", KEY_NAME := "Scionlab",
    KEY_EMAIL := "scionlab@example.org", KEY_SIZE := 2048,
    CA_EXPIRE := 3650, KEY_EXPIRE := 365 }

def sampleSettings : Settings :=
  { VPN_CA_KEY_PASSWORD := "pw", VPN_KEYGEN_CONFIG := sampleKeygenConfig }

/-- The root certificate a bootstrap with key `⟨5⟩`, serial 7, time 0
creates. -/
def sampleCACert : Certificate := _generate_root_ca_cert sampleSettings ⟨5⟩ 7 0

/-- The CA store state right after that bootstrap. -/
def caStoreFS : FileSystem :=
  { caKeyFile := some (.pem (.rsa ⟨5⟩) "pw"),
    caCertFile := some (.cert sampleCACert) }

def sampleHost : Host :=
  { AS := { as_path_str := "1-ff00:0:110", is_infrastructure_AS := true,
            owner := ⟨"user@example.org"⟩ },
    public_ip := "192.0.2.1", uid := "h3" }

/-- A host whose public address contains colons. -/
def colonHost : Host :=
  { AS := { as_path_str := "1-ff00:0:110", is_infrastructure_AS := false,
            owner := ⟨"user@example.org"⟩ },
    public_ip := "fd00::2:1", uid := "h4" }

/-- An imported (non-self-signed) CA certificate: subject and issuer
differ. -/
def c9CACert : Certificate :=
  { subject := [⟨NameOID_COMMON_NAME, "Root subject"⟩],
    issuer := [⟨NameOID_COMMON_NAME, "Imported issuer"⟩],
    public_key := 5, serial_number := 7, not_valid_before := 0,
    not_valid_after := 100, extensions := [] }

/-- A CA store holding that imported certificate. -/
def c9fs : FileSystem :=
  { caKeyFile := some (.pem (.rsa ⟨5⟩) "pw"),
    caCertFile := some (.cert c9CACert) }

/-- The certificate server issuance produces for `sampleHost` from
`caStoreFS` with key `⟨9⟩`, uuid token "u", serial 1, time 0. -/
def c4cert : Certificate :=
  _make_cert sampleSettings "u" 1 0
    (sampleHost.AS.as_path_str ++ "__" ++ sampleHost.public_ip.replace ":" "_")
    ⟨9⟩ sampleCACert.issuer ⟨5⟩ ExtendedKeyUsageOID_SERVER_AUTH

/-- The key/certificate pair server issuance produces for `sampleHost`
from the imported-CA store `c9fs`. -/
def c9kc : RSAPrivateKey × Certificate :=
  (⟨9⟩, _make_cert sampleSettings "u" 1 0
    (sampleHost.AS.as_path_str ++ "__" ++ sampleHost.public_ip.replace ":" "_")
    ⟨9⟩ c9CACert.issuer ⟨5⟩ ExtendedKeyUsageOID_SERVER_AUTH)

/-- A client configuration template referencing two placeholders. -/
def c8tmpl : ConfigTemplate :=
  [.lit "remote ", .placeholder "ServerIP", .lit " ",
   .placeholder "ServerPort"]

/-- A concrete VPN client for rendering. -/
def c8client : VPNClient :=
  { vpn := { server := { public_ip := "192.0.2.7" }, server_port := 1194 },
    cert := "CLIENTCERTPEM", private_key := "CLIENTKEYPEM" }

/-- A certificate whose subject has two Common Name attributes. -/
def twoCNCert : Certificate :=
  { subject := [⟨NameOID_COMMON_NAME, "a"⟩, ⟨NameOID_COMMON_NAME, "b"⟩],
    issuer := [], public_key := 0, serial_number := 0,
    not_valid_before := 0, not_valid_after := 0, extensions := [] }

/-- A certificate whose subject has exactly one Common Name attribute. -/
def oneCNCert : Certificate :=
  { subject := [⟨NameOID_ORGANIZATION_NAME, "Scionlab"⟩,
                ⟨NameOID_COMMON_NAME, "a"⟩],
    issuer := [], public_key := 0, serial_number := 0,
    not_valid_before := 0, not_valid_after := 0, extensions := [] }

/-! Theorems. -/

/-- C1 counterexample: at a concrete issuance input the leaf certificate's
KeyUsage extension (third positional constructor argument) has
`key_encipherment = true`, so it is not the case that every key-usage bit
other than `digitalSignature` is false. -/
theorem make_cert_key_usage_cex :
    get_extension_key_usage
      (_make_cert sampleSettings "deadbeef" 1 0 "server-subject" ⟨1⟩ [] ⟨2⟩
        ExtendedKeyUsageOID_SERVER_AUTH)
      = some (⟨true, false, true, false, false, false, false, false, false⟩,
              true)
    ∧ (KeyUsage.mk true false true false false false false false
        false).key_encipherment = true :=
  ⟨rfl, rfl⟩

/-- C1 (amended): every leaf certificate built by `_make_cert` carries a
critical KeyUsage extension with digitalSignature and keyEncipherment set
to true and every other key-usage bit set to false. -/
theorem make_cert_key_usage_spec (s : Settings) (uuid4hex : String)
    (serial now : Nat) (subject_name : String)
    (subject_key issuer_key : RSAPrivateKey) (issuer_name : X509Name)
    (extended_key_usage_oid : String) :
    get_extension_key_usage
      (_make_cert s uuid4hex serial now subject_name subject_key issuer_name
        issuer_key extended_key_usage_oid)
      = some (⟨true, false, true, false, false, false, false, false, false⟩,
              true) := rfl

/-- C3: `_truncated_unique_name` returns names of length at most 64
unchanged; on longer names (with `uuid4hex` the 32-character lowercase-hex
token `uuid.uuid4().hex` draws) it returns a string of length exactly 64
whose first 32 characters are the input's first 32 characters and whose
remaining 32 characters are that hex token. -/
theorem truncated_unique_name_spec (name uuid4hex : String) :
    (name.length ≤ 64 → _truncated_unique_name name uuid4hex = name)
    ∧ (64 < name.length → uuid4hex.length = 32 →
       (∀ ch ∈ uuid4hex.data, isHexDigitChar ch) →
       (_truncated_unique_name name uuid4hex).length = 64
       ∧ (_truncated_unique_name name uuid4hex).take 32 = name.take 32
       ∧ (_truncated_unique_name name uuid4hex).drop 32 = uuid4hex
       ∧ ∀ ch ∈ ((_truncated_unique_name name uuid4hex).drop 32).data,
           isHexDigitChar ch) := by
  constructor
  · intro h
    simp only [_truncated_unique_name]
    rw [if_pos h]
  · intro h hlen hhex
    have hne : ¬ name.length ≤ 64 := by omega
    have hres : _truncated_unique_name name uuid4hex
        = name.take 32 ++ uuid4hex := by
      simp only [_truncated_unique_name]
      rw [if_neg hne]
    have hdlen : name.data.length = name.length := rfl
    have htklen : (name.take 32).length = 32 := by
      have h1 : (name.take 32).length = (name.data.take 32).length := by
        rw [String.take_eq]
        rfl
      rw [h1, List.length_take]
      omega
    have hdrop : (_truncated_unique_name name uuid4hex).drop 32
        = uuid4hex := by
      rw [hres]
      apply String.ext
      rw [String.data_drop, String.data_append, String.data_take]
      have h2 : (name.data.take 32).length = 32 := by
        rw [List.length_take]; omega
      nth_rewrite 1 [← h2]
      rw [List.drop_left]
    refine ⟨?_, ?_, hdrop, ?_⟩
    · rw [hres, String.length_append, htklen, hlen]
    · rw [hres]
      apply String.ext
      rw [String.data_take, String.data_append, String.data_take]
      rw [List.take_append_of_le_length (by rw [List.length_take]; omega)]
      rw [List.take_take]
      simp
    · rw [hdrop]
      exact hhex

/-- C3 witness: concrete 80-character input and 32-character hex token. -/
theorem truncated_unique_name_spec_witness :
    (_truncated_unique_name
        "0123456789012345678901234567890123456789012345678901234567890123456789-eighty--"
        "0123456789abcdef0123456789abcdef").length = 64
    ∧ (_truncated_unique_name
        "0123456789012345678901234567890123456789012345678901234567890123456789-eighty--"
        "0123456789abcdef0123456789abcdef").take 32
      = ("0123456789012345678901234567890123456789012345678901234567890123456789-eighty--" : String).take 32
    ∧ (_truncated_unique_name
        "0123456789012345678901234567890123456789012345678901234567890123456789-eighty--"
        "0123456789abcdef0123456789abcdef").drop 32
      = "0123456789abcdef0123456789abcdef" := by
  have h := (truncated_unique_name_spec
    "0123456789012345678901234567890123456789012345678901234567890123456789-eighty--"
    "0123456789abcdef0123456789abcdef").2
    (by decide) (by decide) (by decide)
  exact ⟨h.1, h.2.1, h.2.2.1⟩

/-- C5: `get_cert_common_name` fails with the ambiguity `ValueError`
exactly when the subject has zero or more than one Common Name attribute,
and with exactly one such attribute it returns that attribute's value. -/
theorem get_cert_common_name_spec (cert : Certificate) :
    (get_cert_common_name cert
        = .error
            (.valueError "Certificate Common Name field is not unequivocal.")
      ↔ (get_attributes_for_oid cert.subject NameOID_COMMON_NAME).length ≠ 1)
    ∧ ∀ v, get_attributes_for_oid cert.subject NameOID_COMMON_NAME = [v] →
        get_cert_common_name cert = .ok v := by
  constructor
  · by_cases hl :
      (get_attributes_for_oid cert.subject NameOID_COMMON_NAME).length = 1
    · simp [get_cert_common_name, hl]
    · simp [get_cert_common_name, hl]
  · intro v hv
    simp [get_cert_common_name, hv]

/-- C5 witness: a two-Common-Name subject fails, a one-Common-Name subject
returns the value. -/
theorem get_cert_common_name_spec_witness :
    get_cert_common_name twoCNCert
      = .error (.valueError "Certificate Common Name field is not unequivocal.")
    ∧ get_cert_common_name oneCNCert = .ok "a" :=
  ⟨(get_cert_common_name_spec twoCNCert).1.mpr (by decide),
   (get_cert_common_name_spec oneCNCert).2 "a" (by decide)⟩

lemma load_ca_key_material_eq (s : Settings) (fs : FileSystem)
    (ca_key : RSAPrivateKey) (c : Certificate)
    (hk : load_ca_key s fs = .ok ca_key) (hc : load_ca_cert fs = .ok c) :
    load_ca_key_material s fs = .ok (ca_key, c) := by
  simp [load_ca_key_material, hk, hc, bind, Except.bind, pure, Except.pure]

lemma generate_server_eq (s : Settings) (fs : FileSystem)
    (key : RSAPrivateKey) (uuid4hex : String) (serial now : Nat) (host : Host)
    (ca_key : RSAPrivateKey) (c : Certificate)
    (hk : load_ca_key s fs = .ok ca_key) (hc : load_ca_cert fs = .ok c) :
    generate_vpn_server_key_material s fs key uuid4hex serial now host
      = .ok (key, _make_cert s uuid4hex serial now
          (host.AS.as_path_str ++ "__" ++ host.public_ip.replace ":" "_")
          key c.issuer ca_key ExtendedKeyUsageOID_SERVER_AUTH) := by
  simp [generate_vpn_server_key_material,
        load_ca_key_material_eq s fs ca_key c hk hc, bind, Except.bind,
        pure, Except.pure]

lemma generate_client_eq (s : Settings) (fs : FileSystem)
    (client_key : RSAPrivateKey) (uuid4hex : String) (serial now : Nat)
    (host : Host) (ca_key : RSAPrivateKey) (c : Certificate)
    (hk : load_ca_key s fs = .ok ca_key) (hc : load_ca_cert fs = .ok c) :
    generate_vpn_client_key_material s fs client_key uuid4hex serial now host
      = .ok (client_key, _make_cert s uuid4hex serial now
          (if host.AS.is_infrastructure_AS then
             host.AS.as_path_str ++ "_" ++ host.uid
           else host.AS.owner.email ++ "_" ++ host.AS.as_path_str)
          client_key c.issuer ca_key ExtendedKeyUsageOID_CLIENT_AUTH) := by
  simp [generate_vpn_client_key_material,
        load_ca_key_material_eq s fs ca_key c hk hc, bind, Except.bind,
        pure, Except.pure]

lemma generate_server_ok_elim {s : Settings} {fs : FileSystem}
    {key : RSAPrivateKey} {uuid4hex : String} {serial now : Nat} {host : Host}
    {kc : RSAPrivateKey × Certificate}
    (h : generate_vpn_server_key_material s fs key uuid4hex serial now host
          = .ok kc) :
    ∃ ca_key c, load_ca_key s fs = .ok ca_key ∧ load_ca_cert fs = .ok c ∧
      kc = (key, _make_cert s uuid4hex serial now
        (host.AS.as_path_str ++ "__" ++ host.public_ip.replace ":" "_")
        key c.issuer ca_key ExtendedKeyUsageOID_SERVER_AUTH) := by
  cases hc : load_ca_cert fs with
  | error e =>
    simp [generate_vpn_server_key_material, load_ca_key_material, hc,
          bind, Except.bind, pure, Except.pure] at h
  | ok c =>
    cases hk : load_ca_key s fs with
    | error e =>
      simp [generate_vpn_server_key_material, load_ca_key_material, hc, hk,
            bind, Except.bind, pure, Except.pure] at h
    | ok ca_key =>
      rw [generate_server_eq s fs key uuid4hex serial now host ca_key c hk hc]
        at h
      exact ⟨ca_key, c, rfl, rfl, (Except.ok.inj h).symm⟩

lemma generate_client_ok_elim {s : Settings} {fs : FileSystem}
    {client_key : RSAPrivateKey} {uuid4hex : String} {serial now : Nat}
    {host : Host} {kc : RSAPrivateKey × Certificate}
    (h : generate_vpn_client_key_material s fs client_key uuid4hex serial now
          host = .ok kc) :
    ∃ ca_key c, load_ca_key s fs = .ok ca_key ∧ load_ca_cert fs = .ok c ∧
      kc = (client_key, _make_cert s uuid4hex serial now
        (if host.AS.is_infrastructure_AS then
           host.AS.as_path_str ++ "_" ++ host.uid
         else host.AS.owner.email ++ "_" ++ host.AS.as_path_str)
        client_key c.issuer ca_key ExtendedKeyUsageOID_CLIENT_AUTH) := by
  cases hc : load_ca_cert fs with
  | error e =>
    simp [generate_vpn_client_key_material, load_ca_key_material, hc,
          bind, Except.bind, pure, Except.pure] at h
  | ok c =>
    cases hk : load_ca_key s fs with
    | error e =>
      simp [generate_vpn_client_key_material, load_ca_key_material, hc, hk,
            bind, Except.bind, pure, Except.pure] at h
    | ok ca_key =>
      rw [generate_client_eq s fs client_key uuid4hex serial now host ca_key c
            hk hc] at h
      exact ⟨ca_key, c, rfl, rfl, (Except.ok.inj h).symm⟩

lemma get_cert_common_name_make_cert (s : Settings) (uuid4hex : String)
    (serial now : Nat) (subject_name : String)
    (subject_key issuer_key : RSAPrivateKey) (issuer_name : X509Name)
    (oid : String) :
    get_cert_common_name
      (_make_cert s uuid4hex serial now subject_name subject_key issuer_name
        issuer_key oid)
      = .ok (_truncated_unique_name subject_name uuid4hex) := rfl

/-- C4: extracting the common name from any certificate built by server or
client issuance returns exactly the (possibly truncated) subject string
that was used to build it. -/
theorem issuance_common_name_roundtrip (s : Settings) (fs : FileSystem)
    (key : RSAPrivateKey) (uuid4hex : String) (serial now : Nat) (host : Host)
    (kc kc' : RSAPrivateKey × Certificate) :
    (generate_vpn_server_key_material s fs key uuid4hex serial now host
        = .ok kc →
      get_cert_common_name kc.2
        = .ok (_truncated_unique_name
            (host.AS.as_path_str ++ "__" ++ host.public_ip.replace ":" "_")
            uuid4hex))
    ∧ (generate_vpn_client_key_material s fs key uuid4hex serial now host
        = .ok kc' →
      get_cert_common_name kc'.2
        = .ok (_truncated_unique_name
            (if host.AS.is_infrastructure_AS then
               host.AS.as_path_str ++ "_" ++ host.uid
             else host.AS.owner.email ++ "_" ++ host.AS.as_path_str)
            uuid4hex)) := by
  constructor
  · intro h
    obtain ⟨ca_key, c, _, _, hkc⟩ := generate_server_ok_elim h
    rw [hkc]
    exact get_cert_common_name_make_cert ..
  · intro h
    obtain ⟨ca_key, c, _, _, hkc⟩ := generate_client_ok_elim h
    rw [hkc]
    exact get_cert_common_name_make_cert ..

/-- C4 witness: a concrete server issuance round-trips its subject. -/
theorem issuance_common_name_roundtrip_witness :
    get_cert_common_name c4cert
      = .ok (_truncated_unique_name
          (sampleHost.AS.as_path_str ++ "__"
            ++ sampleHost.public_ip.replace ":" "_") "u") :=
  (issuance_common_name_roundtrip sampleSettings caStoreFS ⟨9⟩ "u" 1 0
    sampleHost (⟨9⟩, c4cert) (⟨9⟩, c4cert)).1 rfl

/-- C6: the subject string passed to the leaf-cert builder is, for server
issuance, network path ++ two underscores ++ public address with colons
replaced by underscores; for client issuance, network path ++ one
underscore ++ host uid (infrastructure AS) or owner email ++ one
underscore ++ network path (user AS). -/
theorem issuance_subject_strings (s : Settings) (fs : FileSystem)
    (key : RSAPrivateKey) (uuid4hex : String) (serial now : Nat) (host : Host)
    (ca_key : RSAPrivateKey) (c : Certificate)
    (hk : load_ca_key s fs = .ok ca_key) (hc : load_ca_cert fs = .ok c) :
    generate_vpn_server_key_material s fs key uuid4hex serial now host
      = .ok (key, _make_cert s uuid4hex serial now
          (host.AS.as_path_str ++ "__" ++ host.public_ip.replace ":" "_")
          key c.issuer ca_key ExtendedKeyUsageOID_SERVER_AUTH)
    ∧ (host.AS.is_infrastructure_AS = true →
      generate_vpn_client_key_material s fs key uuid4hex serial now host
        = .ok (key, _make_cert s uuid4hex serial now
            (host.AS.as_path_str ++ "_" ++ host.uid)
            key c.issuer ca_key ExtendedKeyUsageOID_CLIENT_AUTH))
    ∧ (host.AS.is_infrastructure_AS = false →
      generate_vpn_client_key_material s fs key uuid4hex serial now host
        = .ok (key, _make_cert s uuid4hex serial now
            (host.AS.owner.email ++ "_" ++ host.AS.as_path_str)
            key c.issuer ca_key ExtendedKeyUsageOID_CLIENT_AUTH)) := by
  refine ⟨generate_server_eq s fs key uuid4hex serial now host ca_key c hk hc,
    ?_, ?_⟩
  · intro hinf
    rw [generate_client_eq s fs key uuid4hex serial now host ca_key c hk hc]
    rw [if_pos hinf]
  · intro hinf
    rw [generate_client_eq s fs key uuid4hex serial now host ca_key c hk hc]
    rw [if_neg (by simp [hinf])]

/-- C6 witness: concrete issuance for a user-AS host with a
colon-containing public address. -/
theorem issuance_subject_strings_witness :
    generate_vpn_server_key_material sampleSettings caStoreFS ⟨9⟩ "u" 1 0
        colonHost
      = .ok (⟨9⟩, _make_cert sampleSettings "u" 1 0
          (colonHost.AS.as_path_str ++ "__"
            ++ colonHost.public_ip.replace ":" "_")
          ⟨9⟩ sampleCACert.issuer ⟨5⟩ ExtendedKeyUsageOID_SERVER_AUTH)
    ∧ generate_vpn_client_key_material sampleSettings caStoreFS ⟨9⟩ "u" 1 0
        colonHost
      = .ok (⟨9⟩, _make_cert sampleSettings "u" 1 0
          (colonHost.AS.owner.email ++ "_" ++ colonHost.AS.as_path_str)
          ⟨9⟩ sampleCACert.issuer ⟨5⟩ ExtendedKeyUsageOID_CLIENT_AUTH) :=
  ⟨(issuance_subject_strings sampleSettings caStoreFS ⟨9⟩ "u" 1 0 colonHost
      ⟨5⟩ sampleCACert rfl rfl).1,
   (issuance_subject_strings sampleSettings caStoreFS ⟨9⟩ "u" 1 0 colonHost
      ⟨5⟩ sampleCACert rfl rfl).2.2 rfl⟩

/-- C9 counterexample: with an imported CA certificate whose subject and
issuer differ, the issued leaf's issuer is not the stored CA
certificate's subject. -/
theorem issuance_issuer_name_cex :
    load_ca_cert c9fs = .ok c9CACert
    ∧ generate_vpn_server_key_material sampleSettings c9fs ⟨9⟩ "u" 1 0
        sampleHost = .ok c9kc
    ∧ c9kc.2.issuer ≠ c9CACert.subject :=
  ⟨rfl, rfl, by decide⟩

/-- C9 (amended): the issuer of every issued leaf certificate equals the
issuer name of the stored CA certificate; when the stored CA certificate
is self-signed (subject = issuer) — in particular whenever it was created
by `_generate_root_ca_cert` — this coincides with its subject name. -/
theorem issuance_issuer_name (s : Settings) (fs : FileSystem)
    (key : RSAPrivateKey) (uuid4hex : String) (serial now : Nat) (host : Host)
    (c : Certificate) (hc : load_ca_cert fs = .ok c) :
    (∀ kc, generate_vpn_server_key_material s fs key uuid4hex serial now host
        = .ok kc → kc.2.issuer = c.issuer)
    ∧ (∀ kc, generate_vpn_client_key_material s fs key uuid4hex serial now
        host = .ok kc → kc.2.issuer = c.issuer)
    ∧ (c.subject = c.issuer →
      ∀ kc, generate_vpn_server_key_material s fs key uuid4hex serial now host
        = .ok kc → kc.2.issuer = c.subject)
    ∧ ∀ k sn t, (_generate_root_ca_cert s k sn t).issuer
        = (_generate_root_ca_cert s k sn t).subject := by
  have hs : ∀ kc, generate_vpn_server_key_material s fs key uuid4hex serial
      now host = .ok kc → kc.2.issuer = c.issuer := by
    intro kc h
    obtain ⟨ca_key, c', _, hc', hkc⟩ := generate_server_ok_elim h
    have : c' = c := Except.ok.inj (hc'.symm.trans hc)
    rw [hkc, this]
    rfl
  refine ⟨hs, ?_, ?_, ?_⟩
  · intro kc h
    obtain ⟨ca_key, c', _, hc', hkc⟩ := generate_client_ok_elim h
    have : c' = c := Except.ok.inj (hc'.symm.trans hc)
    rw [hkc, this]
    rfl
  · intro hself kc h
    rw [hself]
    exact hs kc h
  · intro k sn t
    rfl

/-- C9 witness: the amended property at the imported-CA store. -/
theorem issuance_issuer_name_witness :
    c9kc.2.issuer = c9CACert.issuer :=
  (issuance_issuer_name sampleSettings c9fs ⟨9⟩ "u" 1 0 sampleHost c9CACert
    rfl).1 c9kc rfl

/-- C7 counterexample: when the CA key file exists but its bytes do not
parse, the failure is a bare `ValueError` without the remediation hint —
not a `RuntimeError` of the `CAUnavailableError` family. -/
theorem load_ca_key_parse_failure_cex :
    load_ca_key sampleSettings ⟨some .garbage, none⟩
      = .error (.valueError "Could not deserialize key data.")
    ∧ is_ca_unavailable (.valueError "Could not deserialize key data.")
        = false
    ∧ contains_remediation_hint "Could not deserialize key data." = false :=
  ⟨rfl, rfl, by decide⟩

/-- C7 (amended): when the CA key or certificate file is missing, loading
fails with the `RuntimeError` carrying the remediation hint to run the
bootstrap admin command; when the key file exists but cannot be decrypted
or parsed (or holds a non-RSA key), loading fails with a bare
`ValueError`/`TypeError` outside that error family. -/
theorem load_ca_errors (s : Settings) (fs : FileSystem) :
    (fs.caKeyFile = none →
      load_ca_key s fs = .error (.runtimeError load_ca_key_err_msg))
    ∧ (fs.caCertFile = none →
      load_ca_cert fs = .error (.runtimeError load_ca_cert_err_msg))
    ∧ contains_remediation_hint load_ca_key_err_msg = true
    ∧ contains_remediation_hint load_ca_cert_err_msg = true
    ∧ (∀ k pw, fs.caKeyFile = some (.pem k pw) →
      pw ≠ s.VPN_CA_KEY_PASSWORD →
      load_ca_key s fs = .error (.valueError "Bad decrypt. Incorrect password?"))
    ∧ (fs.caKeyFile = some .garbage →
      load_ca_key s fs = .error (.valueError "Could not deserialize key data."))
    ∧ (∀ pk, fs.caKeyFile = some (.pem (.ec pk) s.VPN_CA_KEY_PASSWORD) →
      load_ca_key s fs = .error .typeError)
    ∧ is_ca_unavailable (.valueError "Bad decrypt. Incorrect password?")
        = false
    ∧ is_ca_unavailable (.valueError "Could not deserialize key data.")
        = false
    ∧ is_ca_unavailable .typeError = false := by
  refine ⟨?_, ?_, by decide, by decide, ?_, ?_, ?_, rfl, rfl, rfl⟩
  · intro h
    simp [load_ca_key, h]
  · intro h
    simp [load_ca_cert, h]
  · intro k pw h hpw
    simp [load_ca_key, h, load_pem_private_key, hpw]
  · intro h
    simp [load_ca_key, h, load_pem_private_key]
  · intro pk h
    simp [load_ca_key, h, load_pem_private_key]

/-- C7 witness: the missing-file cases at a concrete empty store. -/
theorem load_ca_errors_witness :
    load_ca_key sampleSettings ⟨none, none⟩
      = .error (.runtimeError load_ca_key_err_msg)
    ∧ load_ca_cert ⟨none, none⟩
      = .error (.runtimeError load_ca_cert_err_msg) :=
  ⟨(load_ca_errors sampleSettings ⟨none, none⟩).1 rfl,
   (load_ca_errors sampleSettings ⟨none, none⟩).2.1 rfl⟩

/-- C10: bootstrap with the key file absent and the certificate file
present writes a fresh encrypted private key and leaves the certificate
file unchanged; the second conjunct exhibits a resulting state in which
the stored certificate's public key does not correspond to the stored
private key. -/
theorem write_vpn_ca_config_key_regen :
    (∀ (s : Settings) (fs : FileSystem) (freshKey : RSAPrivateKey)
       (serial now : Nat) (d : CertFileData),
      fs.caKeyFile = none → fs.caCertFile = some d →
      write_vpn_ca_config s freshKey serial now fs
        = .ok { caKeyFile := some (.pem (.rsa freshKey)
                  s.VPN_CA_KEY_PASSWORD),
                caCertFile := some d })
    ∧ (write_vpn_ca_config sampleSettings ⟨9⟩ 1 0
          ⟨none, some (.cert c9CACert)⟩
        = .ok ⟨some (.pem (.rsa ⟨9⟩) "pw"), some (.cert c9CACert)⟩
      ∧ c9CACert.public_key ≠ (RSAPrivateKey.mk 9).public_key) := by
  refine ⟨?_, rfl, by decide⟩
  intro s fs freshKey serial now d hkey hcert
  obtain ⟨kf, cf⟩ := fs
  simp only at hkey hcert
  subst hkey
  subst hcert
  simp [write_vpn_ca_config, bind, Except.bind, pure, Except.pure]

/-- C10 witness: the universal part at a concrete state. -/
theorem write_vpn_ca_config_key_regen_witness :
    write_vpn_ca_config sampleSettings ⟨9⟩ 1 0 ⟨none, some (.cert c9CACert)⟩
      = .ok { caKeyFile := some (.pem (.rsa ⟨9⟩)
                sampleSettings.VPN_CA_KEY_PASSWORD),
              caCertFile := some (.cert c9CACert) } :=
  write_vpn_ca_config_key_regen.1 sampleSettings ⟨none, some (.cert c9CACert)⟩
    ⟨9⟩ 1 0 (.cert c9CACert) rfl rfl

/-- C2: starting from any filesystem state, a successful bootstrap
followed by a second bootstrap leaves the store exactly as after the
first call; in particular when both files already exist a successful call
writes neither file. -/
theorem write_vpn_ca_config_idempotent (s : Settings) (fs : FileSystem)
    (k1 k2 : RSAPrivateKey) (sn1 t1 sn2 t2 : Nat) :
    (∀ fs1, write_vpn_ca_config s k1 sn1 t1 fs = .ok fs1 →
      write_vpn_ca_config s k2 sn2 t2 fs1 = .ok fs1)
    ∧ (fs.caKeyFile.isSome = true → fs.caCertFile.isSome = true →
      ∀ fs1, write_vpn_ca_config s k1 sn1 t1 fs = .ok fs1 → fs1 = fs) := by
  obtain ⟨kf, cf⟩ := fs
  constructor
  · intro fs1 h1
    cases kf with
    | none =>
      cases cf with
      | none =>
        simp [write_vpn_ca_config, bind, Except.bind, pure, Except.pure] at h1
        subst h1
        simp [write_vpn_ca_config, load_ca_key, load_pem_private_key,
              bind, Except.bind, pure, Except.pure]
      | some d =>
        simp [write_vpn_ca_config, bind, Except.bind, pure, Except.pure] at h1
        subst h1
        simp [write_vpn_ca_config, load_ca_key, load_pem_private_key,
              bind, Except.bind, pure, Except.pure]
    | some d =>
      cases hload : load_ca_key s ⟨some d, cf⟩ with
      | error e =>
        simp [write_vpn_ca_config, hload, bind, Except.bind, pure,
              Except.pure] at h1
      | ok k =>
        have hload2 : ∀ cf2, load_ca_key s ⟨some d, cf2⟩ = .ok k := by
          intro cf2
          rw [← hload]
          rfl
        cases cf with
        | none =>
          simp [write_vpn_ca_config, hload, bind, Except.bind, pure,
                Except.pure] at h1
          subst h1
          simp [write_vpn_ca_config, hload2, bind, Except.bind, pure,
                Except.pure]
        | some e =>
          simp [write_vpn_ca_config, hload, bind, Except.bind, pure,
                Except.pure] at h1
          subst h1
          simp [write_vpn_ca_config, hload2, bind, Except.bind, pure,
                Except.pure]
  · intro hk hc fs1 h1
    cases kf with
    | none => simp at hk
    | some d =>
      cases cf with
      | none => simp at hc
      | some e =>
        cases hload : load_ca_key s ⟨some d, some e⟩ with
        | error er =>
          simp [write_vpn_ca_config, hload, bind, Except.bind, pure,
                Except.pure] at h1
        | ok k =>
          simp [write_vpn_ca_config, hload, bind, Except.bind, pure,
                Except.pure] at h1
          exact h1.symm


/-- C2 witness: bootstrap from the empty store, then again. -/
theorem write_vpn_ca_config_idempotent_witness :
    write_vpn_ca_config sampleSettings ⟨5⟩ 7 0 ⟨none, none⟩ = .ok caStoreFS
    ∧ write_vpn_ca_config sampleSettings ⟨6⟩ 8 1 caStoreFS = .ok caStoreFS :=
  ⟨rfl, (write_vpn_ca_config_idempotent sampleSettings ⟨none, none⟩
    ⟨5⟩ ⟨6⟩ 7 0 8 1).1 caStoreFS rfl⟩

lemma lookup_isSome_iff (m : List (String × String)) (n : String) :
    (m.lookup n).isSome = true ↔ n ∈ m.map Prod.fst := by
  induction m with
  | nil => simp [List.lookup]
  | cons p rest ih =>
    obtain ⟨a, b⟩ := p
    by_cases h : n = a
    · subst h
      simp [List.lookup]
    · have hba : (n == a) = false := beq_eq_false_iff_ne.mpr h
      simp [List.lookup, hba, ih, h]

lemma mem_of_lookup_eq_some {m : List (String × String)} {n v : String}
    (h : m.lookup n = some v) : (n, v) ∈ m := by
  induction m with
  | nil => simp [List.lookup] at h
  | cons p rest ih =>
    obtain ⟨a, b⟩ := p
    by_cases hn : n = a
    · subst hn
      simp [List.lookup] at h
      simp [h]
    · have hba : (n == a) = false := beq_eq_false_iff_ne.mpr hn
      simp [List.lookup, hba] at h
      simp [ih h]

lemma substitute_ok_of_lookup (m : List (String × String)) :
    ∀ t : ConfigTemplate,
      (∀ n ∈ placeholderNames t, (m.lookup n).isSome = true) →
      ∃ out, substitute m t = .ok out := by
  intro t
  induction t with
  | nil => intro _; exact ⟨"", rfl⟩
  | cons seg rest ih =>
    intro h
    cases seg with
    | lit str =>
      obtain ⟨out, hout⟩ := ih (by intro n hn; exact h n (by simp [placeholderNames, hn]))
      exact ⟨str ++ out, by simp [substitute, hout, bind, Except.bind, pure, Except.pure]⟩
    | placeholder n =>
      have hn := h n (by simp [placeholderNames])
      obtain ⟨v, hv⟩ := Option.isSome_iff_exists.mp hn
      obtain ⟨out, hout⟩ := ih (by intro n' hn'; exact h n' (by simp [placeholderNames, hn']))
      exact ⟨v ++ out, by simp [substitute, hv, hout, bind, Except.bind, pure, Except.pure]⟩

lemma substitute_error_elim {m : List (String × String)} :
    ∀ {t : ConfigTemplate} {e : PyError}, substitute m t = .error e →
      ∃ n, e = .keyError n ∧ n ∈ placeholderNames t ∧ m.lookup n = none := by
  intro t
  induction t with
  | nil => intro e h; simp [substitute] at h
  | cons seg rest ih =>
    intro e h
    cases seg with
    | lit str =>
      cases hrest : substitute m rest with
      | error e' =>
        rw [substitute, hrest] at h
        simp [bind, Except.bind] at h
        obtain ⟨n, hn1, hn2, hn3⟩ := ih hrest
        exact ⟨n, by rw [← h]; exact hn1, by simp [placeholderNames, hn2], hn3⟩
      | ok out =>
        rw [substitute, hrest] at h
        simp [bind, Except.bind, pure, Except.pure] at h
    | placeholder n =>
      cases hl : m.lookup n with
      | none =>
        rw [substitute, hl] at h
        exact ⟨n, (Except.error.inj h).symm, by simp [placeholderNames], hl⟩
      | some v =>
        rw [substitute, hl] at h
        cases hrest : substitute m rest with
        | error e' =>
          rw [hrest] at h
          simp [bind, Except.bind] at h
          obtain ⟨n', hn1, hn2, hn3⟩ := ih hrest
          exact ⟨n', by rw [← h]; exact hn1, by simp [placeholderNames, hn2], hn3⟩
        | ok out =>
          rw [hrest] at h
          simp [bind, Except.bind, pure, Except.pure] at h

lemma substitute_error_of_missing {m : List (String × String)} :
    ∀ {t : ConfigTemplate} {n : String}, n ∈ placeholderNames t →
      m.lookup n = none →
      ∃ n', substitute m t = .error (.keyError n') ∧ m.lookup n' = none := by
  intro t
  induction t with
  | nil => intro n hn _; simp [placeholderNames] at hn
  | cons seg rest ih =>
    intro n hn hnone
    cases seg with
    | lit str =>
      rw [placeholderNames] at hn
      obtain ⟨n', hn1, hn2⟩ := ih hn hnone
      exact ⟨n', by simp [substitute, hn1, bind, Except.bind], hn2⟩
    | placeholder p =>
      by_cases hp : (m.lookup p).isSome = true
      · obtain ⟨v, hv⟩ := Option.isSome_iff_exists.mp hp
        have hnp : n ≠ p := by
          intro hEq; subst hEq; rw [hv] at hnone; cases hnone
        rw [placeholderNames] at hn
        have hn' : n ∈ placeholderNames rest := by
          cases hn with
          | head => exact absurd rfl hnp
          | tail _ hmem => exact hmem
        obtain ⟨n', hn1, hn2⟩ := ih hn' hnone
        exact ⟨n', by simp [substitute, hv, hn1, bind, Except.bind], hn2⟩
      · have hpn : m.lookup p = none := by
          cases hl : m.lookup p with
          | none => rfl
          | some v => rw [hl] at hp; simp at hp
        exact ⟨p, by simp [substitute, hpn], hpn⟩

lemma substitute_noDollar {m : List (String × String)} :
    ∀ {t : ConfigTemplate} {out : String}, substitute m t = .ok out →
      (∀ sg, TemplateSeg.lit sg ∈ t → noDollar sg) →
      (∀ p ∈ m, noDollar p.2) → noDollar out := by
  intro t
  induction t with
  | nil =>
    intro out h _ _
    rw [substitute] at h
    cases h
    intro hmem
    simp at hmem
  | cons seg rest ih =>
    intro out h hlit hvals
    cases seg with
    | lit str =>
      cases hrest : substitute m rest with
      | error e => rw [substitute, hrest] at h; simp [bind, Except.bind] at h
      | ok r =>
        rw [substitute, hrest] at h
        simp [bind, Except.bind, pure, Except.pure] at h
        subst h
        have h1 : noDollar str := hlit str (by simp)
        have h2 : noDollar r := ih hrest (by intro sg hsg; exact hlit sg (by simp [hsg])) hvals
        intro hmem
        rw [String.data_append] at hmem
        rcases List.mem_append.mp hmem with hm | hm
        · exact h1 hm
        · exact h2 hm
    | placeholder n =>
      cases hl : m.lookup n with
      | none => rw [substitute, hl] at h; cases h
      | some v =>
        rw [substitute, hl] at h
        cases hrest : substitute m rest with
        | error e => rw [hrest] at h; simp [bind, Except.bind] at h
        | ok r =>
          rw [hrest] at h
          simp [bind, Except.bind, pure, Except.pure] at h
          subst h
          have h1 : noDollar v := hvals (n, v) (mem_of_lookup_eq_some hl)
          have h2 : noDollar r := ih hrest (by intro sg hsg; exact hlit sg (by simp [hsg])) hvals
          intro hmem
          rw [String.data_append] at hmem
          rcases List.mem_append.mp hmem with hm | hm
          · exact h1 hm
          · exact h2 hm


/-- C8: rendering the client config fails with a `KeyError` (the
`TemplateError`) exactly when the template references a placeholder
outside the supplied set ServerIP/ServerPort/CACert/ClientCert/ClientKey;
when every referenced placeholder is in that set it succeeds (unused
supplied entries cause no failure) and, whenever neither the literal
segments nor the substituted values contain the `$` sentinel, the output
contains no remaining placeholder. -/
theorem generate_vpn_client_config_spec (fs : FileSystem) (c : Certificate)
    (tmpl : ConfigTemplate) (client : VPNClient)
    (hca : fs.caCertFile = some (.cert c)) :
    ((∀ n ∈ placeholderNames tmpl, n ∈ client_config_keys) →
      ∃ out, generate_vpn_client_config fs tmpl client = .ok out
        ∧ ((∀ sg, TemplateSeg.lit sg ∈ tmpl → noDollar sg) →
           noDollar (public_bytes_pem c) →
           noDollar client.vpn.server.public_ip →
           noDollar (toString client.vpn.server_port) →
           noDollar client.cert → noDollar client.private_key →
           noDollar out))
    ∧ (∀ e, generate_vpn_client_config fs tmpl client = .error e →
        ∃ n, e = .keyError n ∧ n ∈ placeholderNames tmpl
          ∧ n ∉ client_config_keys)
    ∧ (∀ n0, n0 ∈ placeholderNames tmpl → n0 ∉ client_config_keys →
        ∃ n, generate_vpn_client_config fs tmpl client
            = .error (.keyError n) ∧ n ∉ client_config_keys) := by
  have hload : load_ca_cert fs = .ok c := by
    simp [load_ca_cert, hca, load_pem_x509_certificate]
  have hgen : generate_vpn_client_config fs tmpl client
      = substitute
          [("ServerIP", client.vpn.server.public_ip),
           ("ServerPort", toString client.vpn.server_port),
           ("CACert", public_bytes_pem c),
           ("ClientCert", client.cert),
           ("ClientKey", client.private_key)] tmpl := by
    simp [generate_vpn_client_config, hload, bind, Except.bind]
  have hkeys :
      ([("ServerIP", client.vpn.server.public_ip),
        ("ServerPort", toString client.vpn.server_port),
        ("CACert", public_bytes_pem c),
        ("ClientCert", client.cert),
        ("ClientKey", client.private_key)]).map Prod.fst
      = client_config_keys := rfl
  refine ⟨?_, ?_, ?_⟩
  · intro hall
    obtain ⟨out, hout⟩ := substitute_ok_of_lookup _ tmpl
      (fun n hn => (lookup_isSome_iff _ n).mpr (hkeys ▸ hall n hn))
    refine ⟨out, by rw [hgen]; exact hout, ?_⟩
    intro h1 h2 h3 h4 h5 h6
    apply substitute_noDollar hout h1
    intro p hp
    simp at hp
    rcases hp with h | h | h | h | h <;> rw [h] <;> assumption
  · intro e he
    rw [hgen] at he
    obtain ⟨n, h1, h2, h3⟩ := substitute_error_elim he
    refine ⟨n, h1, h2, fun hmem => ?_⟩
    have := (lookup_isSome_iff _ n).mpr (hkeys ▸ hmem)
    rw [h3] at this
    simp at this
  · intro n0 hmem hnot
    have hnone :
        ([("ServerIP", client.vpn.server.public_ip),
          ("ServerPort", toString client.vpn.server_port),
          ("CACert", public_bytes_pem c),
          ("ClientCert", client.cert),
          ("ClientKey", client.private_key)]).lookup n0 = none := by
      cases hl :
          ([("ServerIP", client.vpn.server.public_ip),
            ("ServerPort", toString client.vpn.server_port),
            ("CACert", public_bytes_pem c),
            ("ClientCert", client.cert),
            ("ClientKey", client.private_key)]).lookup n0 with
      | none => rfl
      | some v =>
        exact absurd (hkeys ▸ (lookup_isSome_iff _ n0).mp (by rw [hl]; rfl))
          hnot
    obtain ⟨n', h1, h2⟩ := substitute_error_of_missing hmem hnone
    refine ⟨n', by rw [hgen]; exact h1, fun hmem' => ?_⟩
    have := (lookup_isSome_iff _ n').mpr (hkeys ▸ hmem')
    rw [h2] at this
    simp at this

/-- C8 witness: a concrete two-placeholder template renders with no
remaining sentinel. -/
theorem generate_vpn_client_config_spec_witness :
    generate_vpn_client_config caStoreFS c8tmpl c8client
      = .ok "remote 192.0.2.7 1194"
    ∧ noDollar "remote 192.0.2.7 1194" := by
  obtain ⟨out, hout, hnd⟩ :=
    (generate_vpn_client_config_spec caStoreFS sampleCACert c8tmpl c8client
      rfl).1 (by decide)
  have hcomp : generate_vpn_client_config caStoreFS c8tmpl c8client
      = .ok "remote 192.0.2.7 1194" := by rfl
  have hout' : out = "remote 192.0.2.7 1194" :=
    Except.ok.inj (hout.symm.trans hcomp)
  subst hout'
  refine ⟨hcomp, hnd ?_ (by decide) (by decide) (by decide) (by decide)
    (by decide)⟩
  intro sg hsg
  simp [c8tmpl] at hsg
  rcases hsg with h | h <;> subst h <;> decide

end OpenvpnConfig
